import Mathlib

/-!
Shallow embedding of `src/pkgs/pty/portable_pty/rust/src/lib.rs` (libportable-pty),
covering the child-exit observation subsystem (PID registry, SIGCHLD handler
status synthesis, wait/kill decision trees) and the thin spawn/read wrappers.

Machine integers (`c_int` = `i32`) are modelled as `Int`; the C bit operations
on status words are written with `%` and `*`/`/` by powers of two, which agree
with the two's-complement `&`, `|`, `<<`, `>>` on the value ranges involved
(each definition notes the original expression).  External effects (`waitpid`,
`kill`, the upstream portable-pty `try_wait`/`wait`/`spawn_command`) are passed
in as explicit oracle values, so each C-ABI function becomes a pure function of
the handle state and its environment.
-/


/-- Capacity of the PID registry (`MAX_TRACKED_PIDS` in the source). -/
def MAX_TRACKED_PIDS : Nat := 64

/-- Sentinel: slot has no cached status yet (`SLOT_RUNNING = i32::MIN`). -/
def SLOT_RUNNING : Int := -2147483648

/-- Sentinel: slot is unused (`SLOT_EMPTY = i32::MIN + 1`). -/
def SLOT_EMPTY : Int := -2147483647

/-- One slot of the PID registry: a pair of atomics `pid` (0 = unused) and
`status` (raw `waitpid` status word, or `SLOT_RUNNING` / `SLOT_EMPTY`). -/
structure PidSlot where
  pid : Int
  status : Int
deriving DecidableEq, Repr

/-- The process-global registry `PID_REGISTRY`: a fixed array of slots,
modelled as a list scanned in order (the source scans indices 0..63). -/
abbrev Registry := List PidSlot

/-- Default slot used for out-of-range reads in statements
(`PidSlot::new()`: pid 0, status `SLOT_EMPTY`). -/
def defaultSlot : PidSlot := ⟨0, SLOT_EMPTY⟩

/-- Status of the slot at index `i` (default slot when out of range). -/
def statusAt (r : Registry) (i : Nat) : Int := (r.getD i defaultSlot).status

/-- `register_pid`: linearly scan slots; claim the first slot whose `pid`
compare-exchanges from 0, store `SLOT_RUNNING` into its `status`, and return.
If all slots are taken the registry is returned unchanged (PID untracked). -/
def register_pid (pid : Int) : Registry → Registry
  | [] => []
  | slot :: rest =>
    if slot.pid = 0 then
      { pid := pid, status := SLOT_RUNNING } :: rest
    else
      slot :: register_pid pid rest

/-- `unregister_pid`: scan; compare-exchange `pid` from the target back to 0 on
the first matching slot, then swap `SLOT_EMPTY` into its `status`. -/
def unregister_pid (pid : Int) : Registry → Registry
  | [] => []
  | slot :: rest =>
    if slot.pid = pid then
      { pid := 0, status := SLOT_EMPTY } :: rest
    else
      slot :: unregister_pid pid rest

/-- Linux `WIFEXITED(status)`: `(status & 0x7f) == 0`.
`status % 128` is the nonnegative low-7-bit residue of the i32 word. -/
def WIFEXITED (status : Int) : Bool := status % 128 == 0

/-- Linux `WEXITSTATUS(status)`: `(status >> 8) & 0xff`.  Arithmetic right
shift of an i32 is flooring division, which `Int./` performs for a positive
divisor; the mask is the residue `% 256`. -/
def WEXITSTATUS (status : Int) : Int := (status / 256) % 256

/-- Linux `WTERMSIG(status)`: `status & 0x7f`. -/
def WTERMSIG (status : Int) : Int := status % 128

/-- Wrap an integer to the i8 range, as the Rust cast `as i8` does. -/
def as_i8 (v : Int) : Int := (v + 128) % 256 - 128

/-- Linux `WIFSIGNALED(status)`: `(((status & 0x7f) + 1) as i8) >> 1 > 0`.
The arithmetic right shift by one is flooring division by two. -/
def WIFSIGNALED (status : Int) : Bool := as_i8 (status % 128 + 1) / 2 > 0

/-- Decoding of a raw `waitpid` status word into the exit-code convention,
as inlined at each use in `lookup_cached_status`, `portable_pty_wait` and
`portable_pty_wait_blocking`: normal exit yields `WEXITSTATUS`, termination
by signal yields `128 + WTERMSIG`, anything else yields `-1`. -/
def decode_status (raw : Int) : Int :=
  if WIFEXITED raw then WEXITSTATUS raw
  else if WIFSIGNALED raw then 128 + WTERMSIG raw
  else -1

/-- `lookup_cached_status`: scan for the first slot whose `pid` matches;
return `none` on a sentinel status, otherwise the decoded exit code. -/
def lookup_cached_status (pid : Int) : Registry → Option Int
  | [] => none
  | slot :: rest =>
    if slot.pid = pid then
      if slot.status = SLOT_RUNNING ∨ slot.status = SLOT_EMPTY then none
      else some (decode_status slot.status)
    else lookup_cached_status pid rest

/-- Linux `CLD_EXITED`. -/
def CLD_EXITED : Int := 1

/-- Linux `CLD_KILLED`. -/
def CLD_KILLED : Int := 2

/-- Linux `CLD_DUMPED`. -/
def CLD_DUMPED : Int := 3

/-- The `siginfo_t` fields read by the handler. -/
structure siginfo_t where
  si_pid : Int
  si_code : Int
  si_status : Int
deriving DecidableEq, Repr

/-- Status word synthesized by `sigchld_handler` from `siginfo_t`:
`CLD_EXITED` gives `(si_status & 0xff) << 8` (written `% 256 * 256`, no
overflow since the operand is at most 0xff); otherwise
`(si_status & 0x7f) | core_bit` with `core_bit = 0x80` for `CLD_DUMPED`
(written as addition: the low seven bits and the core bit are disjoint). -/
def synth_raw_status (si_code si_status : Int) : Int :=
  if si_code = CLD_EXITED then
    si_status % 256 * 256
  else
    let core_bit : Int := if si_code = CLD_DUMPED then 128 else 0
    si_status % 128 + core_bit

/-- Step 1 of `sigchld_handler`: find the first slot whose `pid` equals
`si_pid` and compare-exchange its `status` from `SLOT_RUNNING` to the
synthesized word (never overwriting a concrete value), then break. -/
def handler_store_siginfo (si_pid raw_status : Int) : Registry → Registry
  | [] => []
  | slot :: rest =>
    if slot.pid = si_pid then
      (if slot.status = SLOT_RUNNING then { slot with status := raw_status } else slot) :: rest
    else slot :: handler_store_siginfo si_pid raw_status rest

/-- Step 2 of `sigchld_handler` (signal-coalescing sweep): for every slot with
a positive `pid` still in `SLOT_RUNNING`, issue `waitpid(pid, WNOHANG)`; store
the raw status on a positive return, do nothing on 0 or -1.  The `waitpid`
results are the oracle `wp` (`some status` when the call returned the pid). -/
def handler_reap_sweep (wp : Int → Option Int) (r : Registry) : Registry :=
  r.map fun slot =>
    if slot.pid > 0 ∧ slot.status = SLOT_RUNNING then
      match wp slot.pid with
      | some status => { slot with status := status }
      | none => slot
    else slot

/-- `sigchld_handler`: step 1 (decode from `siginfo_t`, when the info pointer
is non-null, `si_pid` is positive and `si_code` is one of
`CLD_EXITED`/`CLD_KILLED`/`CLD_DUMPED`), then step 2 (the sweep).  Chaining to
the previous handler does not touch the registry and is not modelled. -/
def sigchld_handler (info : Option siginfo_t) (wp : Int → Option Int) (r : Registry) : Registry :=
  let r1 :=
    match info with
    | none => r
    | some si =>
      if si.si_pid > 0 ∧
          (si.si_code = CLD_EXITED ∨ si.si_code = CLD_KILLED ∨ si.si_code = CLD_DUMPED) then
        handler_store_siginfo si.si_pid (synth_raw_status si.si_code si.si_status) r
      else r
  handler_reap_sweep wp r1

/-- Result enum `PortablePtyResult` of the C API. -/
inductive PortablePtyResult where
  | Ok
  | ErrOpen
  | ErrSpawn
  | ErrResize
  | ErrRead
  | ErrWrite
  | ErrNull
  | ErrWait
  | ErrKill
  | ErrMode
  | ErrSize
  | ErrWaitBlocking
  | ErrProcessGroup
deriving DecidableEq, Repr

/-- The fields of the opaque handle `PortablePty` that the child-exit
subsystem reads and writes.  `child` records whether the `Option` holding the
spawned child object is `Some`; the master/slave/reader/writer fields never
interact with the claims below. -/
structure PortablePty where
  child : Bool
  child_pid : Int
  cached_exit_code : Option Int
deriving DecidableEq, Repr

/-- Outcome of one `libc::waitpid(pid, ...)` call: the pid with a raw status
word (`ret == pid`), 0 (`WNOHANG`, child still running), or -1. -/
inductive WaitpidRes where
  | reaped (status : Int)
  | stillRunning
  | failed
deriving DecidableEq, Repr

/-- Outcome of the upstream `child.try_wait()`: `Ok(Some(status))` carrying
`status.exit_code()` (a `u32`), `Ok(None)`, or `Err(_)`. -/
inductive TryWaitRes where
  | exited (exit_code : Nat)
  | running
  | err
deriving DecidableEq, Repr

/-- Outcome of the upstream blocking `child.wait()`. -/
inductive ChildWaitRes where
  | exited (exit_code : Nat)
  | err
deriving DecidableEq, Repr

/-- The Rust `status.exit_code().try_into().unwrap_or(-1)`: a `u32` converted
to `c_int`, falling back to -1 when it exceeds `i32::MAX`. -/
def exit_code_to_c_int (e : Nat) : Int :=
  if e < 2147483648 then (e : Int) else -1

/-- Environment of one `portable_pty_wait` call: the registry contents at the
first lookup and at the re-check (the handler may run in between), the two
direct `waitpid(pid, WNOHANG)` results, the upstream `try_wait()` result, and
whether the liveness probe `kill(pid, 0)` failed with `ESRCH`. -/
structure WaitEnv where
  registry : Registry
  waitpid_nohang : WaitpidRes
  try_wait : TryWaitRes
  waitpid_fallback : WaitpidRes
  registry2 : Registry
  kill0_errno_esrch : Bool
deriving DecidableEq, Repr

/-- Shorthand for the wait functions' successful returns: return `Ok`, write
the code to `*out_status` (modelled as the middle component), and store it in
`cached_exit_code`. -/
def wait_ok (pty : PortablePty) (code : Int) :
    PortablePtyResult × Option Int × PortablePty :=
  (.Ok, some code, { pty with cached_exit_code := some code })

/-- Fallback section of `portable_pty_wait` (manual detection for
already-reaped children): direct `waitpid(pid, WNOHANG)`, registry re-check,
then the `kill(pid, 0)` `ESRCH` liveness probe reporting exit code 0. -/
def wait_fallback (pty : PortablePty) (env : WaitEnv) :
    PortablePtyResult × Option Int × PortablePty :=
  if pty.child_pid ≤ 0 then (.ErrWait, none, pty)
  else
    match env.waitpid_fallback with
    | .reaped status => wait_ok pty (decode_status status)
    | .stillRunning => (.ErrWait, none, pty)
    | .failed =>
      match lookup_cached_status pty.child_pid env.registry2 with
      | some code => wait_ok pty code
      | none =>
        if env.kill0_errno_esrch then wait_ok pty 0
        else (.ErrWait, none, pty)

/-- The `try_wait()` step of `portable_pty_wait` and its fall-through into the
fallback section. -/
def wait_try (pty : PortablePty) (env : WaitEnv) :
    PortablePtyResult × Option Int × PortablePty :=
  match env.try_wait with
  | .exited e => wait_ok pty (exit_code_to_c_int e)
  | .running => (.ErrWait, none, pty)
  | .err => wait_fallback pty env

/-- `portable_pty_wait` (POSIX branch): cached code first; `ErrWait` when no
child was spawned; when `child_pid > 0`, registry lookup then a pre-emptive
`waitpid(pid, WNOHANG)` (both 0 and -1 fall through); then the upstream
`try_wait()` and the fallback section.  The middle component of the result is
the value written to `*out_status` when that pointer is non-null. -/
def portable_pty_wait (pty : PortablePty) (env : WaitEnv) :
    PortablePtyResult × Option Int × PortablePty :=
  match pty.cached_exit_code with
  | some code => (.Ok, some code, pty)
  | none =>
    if pty.child = false then (.ErrWait, none, pty)
    else if pty.child_pid > 0 then
      match lookup_cached_status pty.child_pid env.registry with
      | some code => wait_ok pty code
      | none =>
        match env.waitpid_nohang with
        | .reaped raw => wait_ok pty (decode_status raw)
        | _ => wait_try pty env
    else wait_try pty env

/-- Environment of one `portable_pty_wait_blocking` call. -/
structure WaitBlockingEnv where
  registry : Registry
  wait : ChildWaitRes
  waitpid_blocking : WaitpidRes
  registry2 : Registry
  kill0_errno_esrch : Bool
deriving DecidableEq, Repr

/-- Fallback section of `portable_pty_wait_blocking`: blocking
`waitpid(pid, 0)` (anything other than `ret == pid` falls through), registry
re-check, then the `ESRCH` probe. -/
def wait_blocking_fallback (pty : PortablePty) (env : WaitBlockingEnv) :
    PortablePtyResult × Option Int × PortablePty :=
  if pty.child_pid ≤ 0 then (.ErrWaitBlocking, none, pty)
  else
    match env.waitpid_blocking with
    | .reaped status => wait_ok pty (decode_status status)
    | _ =>
      match lookup_cached_status pty.child_pid env.registry2 with
      | some code => wait_ok pty code
      | none =>
        if env.kill0_errno_esrch then wait_ok pty 0
        else (.ErrWaitBlocking, none, pty)

/-- `portable_pty_wait_blocking` (POSIX branch): cached code first; `ErrWait`
when no child; registry lookup when `child_pid > 0`; the upstream blocking
`wait()`; then the fallback section. -/
def portable_pty_wait_blocking (pty : PortablePty) (env : WaitBlockingEnv) :
    PortablePtyResult × Option Int × PortablePty :=
  match pty.cached_exit_code with
  | some code => (.Ok, some code, pty)
  | none =>
    if pty.child = false then (.ErrWait, none, pty)
    else
      match (if pty.child_pid > 0 then lookup_cached_status pty.child_pid env.registry
             else none) with
      | some code => wait_ok pty code
      | none =>
        match env.wait with
        | .exited e => wait_ok pty (exit_code_to_c_int e)
        | .err => wait_blocking_fallback pty env

/-- Outcome of the `libc::kill(pid, signal)` call. -/
inductive KillRes where
  | success
  | errEsrch
  | errOther
deriving DecidableEq, Repr

/-- Environment of one `portable_pty_kill` call. -/
structure KillEnv where
  registry : Registry
  kill_result : KillRes
deriving DecidableEq, Repr

/-- `portable_pty_kill` (POSIX branch): cached code means silent success;
then the registry (caching a found code); `ErrKill` without a child or a
positive pid; otherwise `kill(pid, signal)` with `ESRCH` mapped to success. -/
def portable_pty_kill (pty : PortablePty) (env : KillEnv) :
    PortablePtyResult × PortablePty :=
  if pty.cached_exit_code.isSome then (.Ok, pty)
  else
    match (if pty.child_pid > 0 then lookup_cached_status pty.child_pid env.registry
           else none) with
    | some code => (.Ok, { pty with cached_exit_code := some code })
    | none =>
      if pty.child = false then (.ErrKill, pty)
      else if pty.child_pid ≤ 0 then (.ErrKill, pty)
      else
        match env.kill_result with
        | .success => (.Ok, pty)
        | .errEsrch => (.Ok, pty)
        | .errOther => (.ErrKill, pty)

/-- Outcome of `reader.read(slice)` in `portable_pty_read`. -/
inductive ReadRes where
  | ok (n : Nat)
  | err
deriving DecidableEq, Repr

/-- `portable_pty_read`: -1 for a null handle, a null buffer, a zero-length
buffer, or a poisoned reader mutex; 0 for `Ok(0)` (EOF); `n` for `Ok(n)`;
-1 for an I/O error. -/
def portable_pty_read (handle : Option PortablePty) (buf_null : Bool) (len : Nat)
    (lock_poisoned : Bool) (read_result : ReadRes) : Int :=
  match handle with
  | none => -1
  | some _ =>
    if buf_null || len == 0 then -1
    else if lock_poisoned then -1
    else
      match read_result with
      | .ok 0 => 0
      | .ok n => (n : Int)
      | .err => -1

/-- The upstream `CommandBuilder` state observable through the calls
`portable_pty_spawn` makes: the command (which the builder itself uses as
`argv[0]`), the explicit arguments, whether the inherited environment was
cleared, and the `KEY=VALUE` pairs set. -/
structure CommandBuilder where
  cmd : String
  args : List String
  env_cleared : Bool
  envs : List (String × String)
deriving DecidableEq, Repr

/-- `CommandBuilder::new(cmd)`. -/
def CommandBuilder.new (cmd : String) : CommandBuilder :=
  { cmd := cmd, args := [], env_cleared := false, envs := [] }

/-- `builder.args(xs)`: append explicit arguments. -/
def CommandBuilder.addArgs (b : CommandBuilder) (xs : List String) : CommandBuilder :=
  { b with args := b.args ++ xs }

/-- `builder.env_clear()`. -/
def CommandBuilder.env_clear (b : CommandBuilder) : CommandBuilder :=
  { b with env_cleared := true }

/-- `builder.env(key, val)`. -/
def CommandBuilder.env (b : CommandBuilder) (key val : String) : CommandBuilder :=
  { b with envs := b.envs ++ [(key, val)] }

/-- Rust `str::split_once(c)` on the character list of a string: split at the
first occurrence of `c`, or `none` when `c` does not occur. -/
def split_once_char (c : Char) : List Char → Option (List Char × List Char)
  | [] => none
  | x :: xs =>
    if x = c then some ([], xs)
    else (split_once_char c xs).map fun p => (x :: p.1, p.2)

/-- `s.split_once('=')` as used on each envp entry. -/
def split_once_eq (s : String) : Option (String × String) :=
  (split_once_char '=' s.data).map fun p => (String.mk p.1, String.mk p.2)

/-- The argv section of `portable_pty_spawn`: when argv is non-null and has
more than one entry, pass positions `1..` as explicit arguments
(`builder.args(&args[1..])`; `CommandBuilder::new` already set argv[0]). -/
def apply_argv (b : CommandBuilder) (argv : Option (List String)) : CommandBuilder :=
  match argv with
  | none => b
  | some args => if args.length > 1 then b.addArgs (args.drop 1) else b

/-- The envp section of `portable_pty_spawn`: when envp is non-null, clear the
inherited environment and set each entry that splits as `KEY=VALUE`, silently
skipping entries with no `=`. -/
def apply_envp (b : CommandBuilder) (envp : Option (List String)) : CommandBuilder :=
  match envp with
  | none => b
  | some entries =>
    entries.foldl
      (fun b s =>
        match split_once_eq s with
        | some (key, val) => b.env key val
        | none => b)
      b.env_clear

/-- Builder construction inside `portable_pty_spawn`:
`CommandBuilder::new(cmd_str)`, then the argv section, then the envp
section. -/
def build_command (cmd_str : String) (argv : Option (List String))
    (envp : Option (List String)) : CommandBuilder :=
  apply_envp (apply_argv (CommandBuilder.new cmd_str) argv) envp

/-- One C string handed across the ABI: either invalid UTF-8 (its `to_str()`
fails) or a valid Rust string. -/
inductive CStrArg where
  | invalid
  | valid (s : String)
deriving DecidableEq, Repr

/-- The argv parse loop: push each entry until the null terminator, returning
`ErrSpawn` (modelled as `none`) on the first invalid-UTF-8 entry. -/
def parse_args : List CStrArg → Option (List String)
  | [] => some []
  | .invalid :: _ => none
  | .valid s :: rest => (parse_args rest).map (s :: ·)

/-- The envp parse loop keeps only the entries whose `to_str()` succeeds
(invalid UTF-8 entries are silently skipped, like entries with no `=`). -/
def parse_env : List CStrArg → List String :=
  List.filterMap fun e =>
    match e with
    | .valid s => some s
    | .invalid => none

/-- Outcome of the upstream `slave.spawn_command(builder)`: a child whose
`process_id()` is an optional `u32`, or an error. -/
inductive SpawnOutcome where
  | ok (process_id : Option Nat)
  | err

/-- The Rust `p as i32` cast of the `u32` process id. -/
def u32_as_i32 (p : Nat) : Int :=
  if p < 2147483648 then (p : Int) else (p : Int) - 4294967296

/-- The tail of `portable_pty_spawn` once the builder is assembled: call the
upstream `slave.spawn_command(builder)`; on failure report `ErrSpawn`; on
success record the pid (`process_id()` mapped through `as i32`, or -1), set
the child, and register the pid when positive. -/
def spawn_finish (pty : PortablePty) (builder : CommandBuilder)
    (spawn_command : CommandBuilder → SpawnOutcome) (reg : Registry) :
    PortablePtyResult × Option PortablePty × Registry :=
  match spawn_command builder with
  | .err => (.ErrSpawn, some pty, reg)
  | .ok process_id =>
    let pid := (process_id.map u32_as_i32).getD (-1)
    let ptyNew := { pty with child := true, child_pid := pid }
    let regNew := if pid > 0 then register_pid pid reg else reg
    (.Ok, some ptyNew, regNew)

/-- `portable_pty_spawn` (POSIX branch): null checks, UTF-8 parsing of cmd and
argv, builder construction, then `spawn_command`; on success record the pid,
set the child, and register the pid when positive.  The SIGCHLD blocking and
handler (re-)installation around the spawn touch neither the handle nor the
registry and are not modelled.  Returns the result, the handle state after the
call, and the registry after the call. -/
def portable_pty_spawn (handle : Option PortablePty) (cmd : Option CStrArg)
    (argv : Option (List CStrArg)) (envp : Option (List CStrArg))
    (spawn_command : CommandBuilder → SpawnOutcome) (reg : Registry) :
    PortablePtyResult × Option PortablePty × Registry :=
  match handle with
  | none => (.ErrNull, none, reg)
  | some pty =>
    match cmd with
    | none => (.ErrNull, some pty, reg)
    | some .invalid => (.ErrSpawn, some pty, reg)
    | some (.valid cmd_str) =>
      let argsParsed : Option (Option (List String)) :=
        match argv with
        | none => some none
        | some lst => (parse_args lst).map some
      match argsParsed with
      | none => (.ErrSpawn, some pty, reg)
      | some argvStrs =>
        spawn_finish pty (build_command cmd_str argvStrs (envp.map parse_env))
          spawn_command reg

/-- Witness handle for `kill_dead_child_succeeds`. -/
def c6_pty : PortablePty := ⟨true, 5, none⟩

/-- Witness environment for `kill_dead_child_succeeds`. -/
def c6_env : KillEnv := ⟨[], .errEsrch⟩

/-- Witness handle for `wait_esrch_reports_zero`. -/
def c1_pty : PortablePty := ⟨true, 7, none⟩

/-- Witness non-blocking environment for `wait_esrch_reports_zero`. -/
def c1_env : WaitEnv := ⟨[], .failed, .err, .failed, [], true⟩

/-- Witness blocking environment for `wait_esrch_reports_zero`. -/
def c1_benv : WaitBlockingEnv := ⟨[], .err, .failed, [], true⟩

/-- Witness handle for `wait_exit_code_write_once`. -/
def c2_pty : PortablePty := ⟨true, 5, none⟩

/-- Witness environment for `wait_exit_code_write_once`: the registry holds
status word 0x100 for pid 5, which decodes to exit code 1. -/
def c2_env : WaitEnv := ⟨[⟨5, 256⟩], .failed, .err, .failed, [], false⟩

/-- Counterexample handle for claim C5. -/
def c5_pty : PortablePty := ⟨true, 1, none⟩

/-- Counterexample environment for claim C5: the pre-emptive
`waitpid(pid, WNOHANG)` returns 0, yet the upstream `try_wait()` reports an
exit with code 7. -/
def c5_env : WaitEnv := ⟨[], .stillRunning, .exited 7, .failed, [], false⟩

/-- Witness registry for `register_pid_capacity`: slot 0 taken, slot 1 free. -/
def c8_reg : Registry := [⟨3, SLOT_RUNNING⟩, ⟨0, SLOT_EMPTY⟩, ⟨0, SLOT_EMPTY⟩]

/-- A status value that is neither sentinel: an actual captured status word. -/
def isConcreteStatus (s : Int) : Prop := s ≠ SLOT_RUNNING ∧ s ≠ SLOT_EMPTY

/-- The three operations that write to registry slots. -/
inductive RegOp where
  | register (pid : Int)
  | unregister (pid : Int)
  | handler (info : Option siginfo_t) (wp : Int → Option Int)

/-- Effect of one registry operation. -/
def RegOp.apply : RegOp → Registry → Registry
  | .register pid, r => register_pid pid r
  | .unregister pid, r => unregister_pid pid r
  | .handler info wp, r => sigchld_handler info wp r

/-- What one handler execution may do to one slot's status: leave it, or
replace `SLOT_RUNNING` with a concrete status word. -/
def handlerStep (s sNew : Int) : Prop :=
  sNew = s ∨ (s = SLOT_RUNNING ∧ isConcreteStatus sNew)

/-- Witness operation for `registry_status_transitions`: a handler delivery
for pid 5 with `CLD_EXITED` status 3, whose sweep `waitpid` calls all fail. -/
def c3_op : RegOp := .handler (some ⟨5, CLD_EXITED, 3⟩) fun _ => none

/-- Witness registry for `registry_status_transitions`. -/
def c3_reg : Registry := [⟨5, SLOT_RUNNING⟩]

/-- Claim C9: `portable_pty_read` returns -1 for a null handle, a null buffer,
or a zero-length buffer (and for a poisoned reader mutex or an underlying I/O
error), 0 for a successful zero-byte read (EOF), and `n` for a successful read
of `n > 0` bytes. -/
theorem read_return_values :
    ∀ (pty : PortablePty) (buf_null : Bool) (len : Nat) (poisoned : Bool) (res : ReadRes),
    portable_pty_read none buf_null len poisoned res = -1 ∧
    (buf_null = true → portable_pty_read (some pty) buf_null len poisoned res = -1) ∧
    portable_pty_read (some pty) buf_null 0 poisoned res = -1 ∧
    (buf_null = false → 0 < len → poisoned = false →
      portable_pty_read (some pty) buf_null len poisoned .err = -1) ∧
    (buf_null = false → 0 < len → poisoned = false →
      portable_pty_read (some pty) buf_null len poisoned (.ok 0) = 0) ∧
    (∀ n, 0 < n → buf_null = false → 0 < len → poisoned = false →
      portable_pty_read (some pty) buf_null len poisoned (.ok n) = (n : Int)) := by
  intro pty buf_null len poisoned res
  refine ⟨rfl, ?_, ?_, ?_, ?_, ?_⟩
  · intro h
    simp [portable_pty_read, h]
  · simp [portable_pty_read]
  · intro h1 h2 h3
    simp [portable_pty_read, h1, h3, Nat.pos_iff_ne_zero.mp h2]
  · intro h1 h2 h3
    simp [portable_pty_read, h1, h3, Nat.pos_iff_ne_zero.mp h2]
  · intro n hn h1 h2 h3
    simp only [portable_pty_read, h1, h3, Bool.false_or, if_neg, Bool.false_eq_true,
      if_false]
    rw [if_neg (by simp [Nat.pos_iff_ne_zero.mp h2])]
    match n, hn with
    | Nat.succ m, _ => rfl

/-- Witness for `read_return_values`: a successful 3-byte read into an 8-byte
buffer returns 3. -/
theorem read_return_values_witness :
    0 < 3 ∧ false = false ∧ 0 < 8 ∧ false = false ∧
    portable_pty_read (some ⟨false, -1, none⟩) false 8 false (.ok 3) = (3 : Int) :=
  ⟨by decide, rfl, by decide, rfl,
    (read_return_values ⟨false, -1, none⟩ false 8 false (.ok 3)).2.2.2.2.2 3
      (by decide) rfl (by decide) rfl⟩

/-- Claim C6: `portable_pty_kill` succeeds on a child known to have exited:
silently when the exit code is already cached, caching the decoded registry
code when the registry holds one, and mapping an `ESRCH` failure of
`kill(pid, signal)` to success. -/
theorem kill_dead_child_succeeds :
    ∀ (pty : PortablePty) (env : KillEnv),
    (∀ c, pty.cached_exit_code = some c → portable_pty_kill pty env = (.Ok, pty)) ∧
    (∀ code, pty.cached_exit_code = none → pty.child_pid > 0 →
      lookup_cached_status pty.child_pid env.registry = some code →
      portable_pty_kill pty env = (.Ok, { pty with cached_exit_code := some code })) ∧
    (pty.cached_exit_code = none → pty.child = true → pty.child_pid > 0 →
      lookup_cached_status pty.child_pid env.registry = none →
      env.kill_result = .errEsrch →
      portable_pty_kill pty env = (.Ok, pty)) := by
  intro pty env
  refine ⟨?_, ?_, ?_⟩
  · intro c h
    simp [portable_pty_kill, h]
  · intro code h hpid hl
    simp [portable_pty_kill, h, hpid, hl]
  · intro h hc hpid hl hk
    have hpid2 : ¬pty.child_pid ≤ 0 := by omega
    simp [portable_pty_kill, h, hc, hpid, hpid2, hl, hk]

/-- Witness for `kill_dead_child_succeeds`: `kill` on a live handle whose
child is gone (`ESRCH`) returns `Ok`. -/
theorem kill_dead_child_succeeds_witness :
    c6_pty.cached_exit_code = none ∧ c6_pty.child = true ∧ c6_pty.child_pid > 0 ∧
    lookup_cached_status c6_pty.child_pid c6_env.registry = none ∧
    c6_env.kill_result = .errEsrch ∧
    portable_pty_kill c6_pty c6_env = (.Ok, c6_pty) :=
  ⟨rfl, rfl, by decide, rfl, rfl,
    (kill_dead_child_succeeds c6_pty c6_env).2.2 rfl rfl (by decide) rfl rfl⟩

/-- Claim C1: with a spawned child of positive pid, no cached code, no
concrete registry status at either lookup, failing direct `waitpid`, a failing
upstream wait, and a `kill(pid, 0)` probe failing with `ESRCH`, both
`portable_pty_wait` and `portable_pty_wait_blocking` cache exit code 0, write
0 to `*out_status`, and return `Ok`. -/
theorem wait_esrch_reports_zero :
    ∀ (pty : PortablePty) (env : WaitEnv) (benv : WaitBlockingEnv),
    pty.child = true → pty.child_pid > 0 → pty.cached_exit_code = none →
    lookup_cached_status pty.child_pid env.registry = none →
    lookup_cached_status pty.child_pid env.registry2 = none →
    env.waitpid_nohang = .failed → env.waitpid_fallback = .failed →
    env.try_wait = .err → env.kill0_errno_esrch = true →
    lookup_cached_status pty.child_pid benv.registry = none →
    benv.wait = .err → benv.waitpid_blocking = .failed →
    lookup_cached_status pty.child_pid benv.registry2 = none →
    benv.kill0_errno_esrch = true →
    portable_pty_wait pty env = (.Ok, some 0, { pty with cached_exit_code := some 0 }) ∧
    portable_pty_wait_blocking pty benv =
      (.Ok, some 0, { pty with cached_exit_code := some 0 }) := by
  intro pty env benv hchild hpid hcache hl1 hl2 hw1 hw2 htw hesrch hbl1 hbw hbwp hbl2 hbesrch
  have hpid2 : ¬pty.child_pid ≤ 0 := by omega
  constructor
  · simp [portable_pty_wait, wait_try, wait_fallback, wait_ok, hchild, hpid, hpid2,
      hcache, hl1, hl2, hw1, hw2, htw, hesrch]
  · simp [portable_pty_wait_blocking, wait_blocking_fallback, wait_ok, hchild, hpid,
      hpid2, hcache, hbl1, hbw, hbwp, hbl2, hbesrch]

/-- Witness for `wait_esrch_reports_zero` at a concrete handle and
environment. -/
theorem wait_esrch_reports_zero_witness :
    c1_pty.child = true ∧ c1_pty.child_pid > 0 ∧ c1_pty.cached_exit_code = none ∧
    lookup_cached_status c1_pty.child_pid c1_env.registry = none ∧
    lookup_cached_status c1_pty.child_pid c1_env.registry2 = none ∧
    c1_env.waitpid_nohang = .failed ∧ c1_env.waitpid_fallback = .failed ∧
    c1_env.try_wait = .err ∧ c1_env.kill0_errno_esrch = true ∧
    lookup_cached_status c1_pty.child_pid c1_benv.registry = none ∧
    c1_benv.wait = .err ∧ c1_benv.waitpid_blocking = .failed ∧
    lookup_cached_status c1_pty.child_pid c1_benv.registry2 = none ∧
    c1_benv.kill0_errno_esrch = true ∧
    (portable_pty_wait c1_pty c1_env =
        (.Ok, some 0, { c1_pty with cached_exit_code := some 0 }) ∧
      portable_pty_wait_blocking c1_pty c1_benv =
        (.Ok, some 0, { c1_pty with cached_exit_code := some 0 })) :=
  ⟨rfl, by decide, rfl, rfl, rfl, rfl, rfl, rfl, rfl, rfl, rfl, rfl, rfl, rfl,
    wait_esrch_reports_zero c1_pty c1_env c1_benv rfl (by decide) rfl rfl rfl rfl rfl rfl
      rfl rfl rfl rfl rfl rfl⟩

/-- Every `Ok` return of `portable_pty_wait` writes some code to `*out_status`
and leaves the handle with that code cached. -/
theorem wait_ok_sets_cache (pty : PortablePty) (env : WaitEnv) :
    (portable_pty_wait pty env).1 = .Ok →
    ∃ c, (portable_pty_wait pty env).2.1 = some c ∧
      (portable_pty_wait pty env).2.2.cached_exit_code = some c := by
  unfold portable_pty_wait wait_try wait_fallback wait_ok
  repeat' split
  all_goals simp_all

/-- Every `Ok` return of `portable_pty_wait_blocking` writes some code to
`*out_status` and leaves the handle with that code cached. -/
theorem wait_blocking_ok_sets_cache (pty : PortablePty) (env : WaitBlockingEnv) :
    (portable_pty_wait_blocking pty env).1 = .Ok →
    ∃ c, (portable_pty_wait_blocking pty env).2.1 = some c ∧
      (portable_pty_wait_blocking pty env).2.2.cached_exit_code = some c := by
  unfold portable_pty_wait_blocking wait_blocking_fallback wait_ok
  repeat' split
  all_goals simp_all

/-- A handle with a cached exit code makes `portable_pty_wait` return it
verbatim, for every environment. -/
theorem wait_of_cached (pty : PortablePty) (c : Int)
    (h : pty.cached_exit_code = some c) (env : WaitEnv) :
    portable_pty_wait pty env = (.Ok, some c, pty) := by
  simp [portable_pty_wait, h]

/-- A handle with a cached exit code makes `portable_pty_wait_blocking` return
it verbatim, for every environment. -/
theorem wait_blocking_of_cached (pty : PortablePty) (c : Int)
    (h : pty.cached_exit_code = some c) (env : WaitBlockingEnv) :
    portable_pty_wait_blocking pty env = (.Ok, some c, pty) := by
  simp [portable_pty_wait_blocking, h]

/-- Claim C2: once either wait operation has returned `Ok` with some exit
code, that code is in the write-once `cached_exit_code` field, and every
subsequent call to either wait operation returns `Ok` with the same code and
an unchanged handle, regardless of the environment (no external source is
consulted). -/
theorem wait_exit_code_write_once :
    ∀ (pty ptyNew : PortablePty) (res : PortablePtyResult) (out : Option Int),
    ((∃ env, portable_pty_wait pty env = (res, out, ptyNew)) ∨
      (∃ benv, portable_pty_wait_blocking pty benv = (res, out, ptyNew))) →
    res = .Ok →
    ∃ c, out = some c ∧ ptyNew.cached_exit_code = some c ∧
      (∀ env2, portable_pty_wait ptyNew env2 = (.Ok, some c, ptyNew)) ∧
      (∀ benv2, portable_pty_wait_blocking ptyNew benv2 = (.Ok, some c, ptyNew)) := by
  intro pty ptyNew res out h hres
  subst hres
  obtain ⟨env, heq⟩ | ⟨benv, heq⟩ := h
  · obtain ⟨c, hc1, hc2⟩ := wait_ok_sets_cache pty env (by rw [heq])
    rw [heq] at hc1 hc2
    exact ⟨c, hc1, hc2, fun env2 => wait_of_cached ptyNew c hc2 env2,
      fun benv2 => wait_blocking_of_cached ptyNew c hc2 benv2⟩
  · obtain ⟨c, hc1, hc2⟩ := wait_blocking_ok_sets_cache pty benv (by rw [heq])
    rw [heq] at hc1 hc2
    exact ⟨c, hc1, hc2, fun env2 => wait_of_cached ptyNew c hc2 env2,
      fun benv2 => wait_blocking_of_cached ptyNew c hc2 benv2⟩

/-- Witness for `wait_exit_code_write_once`: a first wait that finds exit
code 1 in the registry pins every later wait to code 1. -/
theorem wait_exit_code_write_once_witness :
    ((∃ env, portable_pty_wait c2_pty env = (.Ok, some 1, ⟨true, 5, some 1⟩)) ∨
      (∃ benv, portable_pty_wait_blocking c2_pty benv = (.Ok, some 1, ⟨true, 5, some 1⟩))) ∧
    PortablePtyResult.Ok = PortablePtyResult.Ok ∧
    (∃ c, (some 1 : Option Int) = some c ∧
      (⟨true, 5, some 1⟩ : PortablePty).cached_exit_code = some c ∧
      (∀ env2, portable_pty_wait ⟨true, 5, some 1⟩ env2 = (.Ok, some c, ⟨true, 5, some 1⟩)) ∧
      (∀ benv2, portable_pty_wait_blocking ⟨true, 5, some 1⟩ benv2 =
        (.Ok, some c, ⟨true, 5, some 1⟩))) :=
  ⟨Or.inl ⟨c2_env, by decide⟩, rfl,
    wait_exit_code_write_once c2_pty ⟨true, 5, some 1⟩ .Ok (some 1)
      (Or.inl ⟨c2_env, by decide⟩) rfl⟩

/-- Counterexample for claim C5: with no cached code and no concrete registry
entry, the pre-emptive `waitpid` returning 0 does not make the call report
still-waiting — the code falls through to `try_wait()`, which here reports an
exit, so the call returns `Ok`, not `ErrWait`. -/
theorem wait_waitpid_zero_not_errwait_cex :
    c5_pty.child = true ∧ c5_pty.child_pid > 0 ∧ c5_pty.cached_exit_code = none ∧
    lookup_cached_status c5_pty.child_pid c5_env.registry = none ∧
    c5_env.waitpid_nohang = .stillRunning ∧
    portable_pty_wait c5_pty c5_env = (.Ok, some 7, ⟨true, 1, some 7⟩) ∧
    (portable_pty_wait c5_pty c5_env).1 ≠ .ErrWait := by decide

/-- Claim C5 as amended: in `portable_pty_wait` with a spawned child of
positive pid, no cached code, and no concrete registry entry, a pre-emptive
`waitpid(pid, WNOHANG)` returning the pid caches the decoded code and returns
`Ok`; a return of 0 falls through to the upstream `try_wait()`, and the call
reports still-waiting (`ErrWait`) when that also reports the child still
running. -/
theorem wait_waitpid_paths :
    ∀ (pty : PortablePty) (env : WaitEnv),
    pty.child = true → pty.child_pid > 0 → pty.cached_exit_code = none →
    lookup_cached_status pty.child_pid env.registry = none →
    (∀ raw, env.waitpid_nohang = .reaped raw →
      portable_pty_wait pty env =
        (.Ok, some (decode_status raw), { pty with cached_exit_code := some (decode_status raw) })) ∧
    (env.waitpid_nohang = .stillRunning → env.try_wait = .running →
      portable_pty_wait pty env = (.ErrWait, none, pty)) := by
  intro pty env hchild hpid hcache hl
  constructor
  · intro raw hw
    simp [portable_pty_wait, wait_ok, hchild, hpid, hcache, hl, hw]
  · intro hw htw
    simp [portable_pty_wait, wait_try, wait_ok, hchild, hpid, hcache, hl, hw, htw]

/-- Witness for `wait_waitpid_paths`: a `waitpid` return of 0 followed by
`try_wait()` reporting the child still running yields `ErrWait`; replacing
the `waitpid` result with a reaped status word 15 yields `Ok` with code 143. -/
theorem wait_waitpid_paths_witness :
    c5_pty.child = true ∧ c5_pty.child_pid > 0 ∧ c5_pty.cached_exit_code = none ∧
    lookup_cached_status c5_pty.child_pid
      (WaitEnv.mk [] .stillRunning .running .failed [] false).registry = none ∧
    (WaitEnv.mk [] .stillRunning .running .failed [] false).waitpid_nohang = .stillRunning ∧
    (WaitEnv.mk [] .stillRunning .running .failed [] false).try_wait = .running ∧
    portable_pty_wait c5_pty (WaitEnv.mk [] .stillRunning .running .failed [] false) =
      (.ErrWait, none, c5_pty) ∧
    portable_pty_wait c5_pty (WaitEnv.mk [] (.reaped 15) .running .failed [] false) =
      (.Ok, some 143,
        { c5_pty with cached_exit_code := some 143 }) :=
  ⟨rfl, by decide, rfl, rfl, rfl, rfl,
    (wait_waitpid_paths c5_pty (WaitEnv.mk [] .stillRunning .running .failed [] false)
      rfl (by decide) rfl rfl).2 rfl rfl,
    by
      have h := (wait_waitpid_paths c5_pty (WaitEnv.mk [] (.reaped 15) .running .failed [] false)
        rfl (by decide) rfl rfl).1 15 rfl
      rw [h]
      decide⟩

/-- Counterexample for claim C4: at `si_status = 0` with `CLD_KILLED`, the
synthesized word is 0, which decodes as a normal exit with code 0 — not as
termination by signal with code `128 + (0 & 0x7f) = 128`. -/
theorem siginfo_killed_zero_cex :
    synth_raw_status CLD_KILLED 0 = 0 ∧
    WIFSIGNALED (synth_raw_status CLD_KILLED 0) = false ∧
    WIFEXITED (synth_raw_status CLD_KILLED 0) = true ∧
    decode_status (synth_raw_status CLD_KILLED 0) = 0 ∧
    decode_status (synth_raw_status CLD_KILLED 0) ≠ 128 + (0 : Int) % 128 := by decide

/-- Claim C4 as amended: for every `si_status`, the `CLD_EXITED` word
`(si_status & 0xff) << 8` decodes as a normal exit with code
`si_status & 0xff`; and whenever the low seven bits of `si_status` lie in the
real signal range 1..126, the `CLD_KILLED` and `CLD_DUMPED` words decode as
termination by signal with code `128 + (si_status & 0x7f)`, the core-dump bit
having no effect on the decoded value. -/
theorem siginfo_status_decodes :
    ∀ (s : Int),
    (WIFEXITED (synth_raw_status CLD_EXITED s) = true ∧
      decode_status (synth_raw_status CLD_EXITED s) = s % 256) ∧
    (1 ≤ s % 128 → s % 128 ≤ 126 →
      (WIFSIGNALED (synth_raw_status CLD_KILLED s) = true ∧
        decode_status (synth_raw_status CLD_KILLED s) = 128 + s % 128) ∧
      (WIFSIGNALED (synth_raw_status CLD_DUMPED s) = true ∧
        decode_status (synth_raw_status CLD_DUMPED s) = 128 + s % 128)) := by
  intro s
  have hsynthE : synth_raw_status CLD_EXITED s = s % 256 * 256 := by
    simp [synth_raw_status]
  have hsynthK : synth_raw_status CLD_KILLED s = s % 128 := by
    norm_num [synth_raw_status, CLD_KILLED, CLD_EXITED, CLD_DUMPED]
  have hsynthD : synth_raw_status CLD_DUMPED s = s % 128 + 128 := by
    norm_num [synth_raw_status, CLD_DUMPED, CLD_EXITED]
  have hexE : WIFEXITED (s % 256 * 256) = true := by
    simp only [WIFEXITED, beq_iff_eq]
    omega
  constructor
  · refine ⟨by rw [hsynthE]; exact hexE, ?_⟩
    rw [hsynthE]
    simp only [decode_status, hexE, if_true, WEXITSTATUS]
    omega
  · intro h1 h2
    have hexK : WIFEXITED (s % 128) = false := by
      simp only [WIFEXITED]
      rw [beq_eq_false_iff_ne]
      omega
    have hsigK : WIFSIGNALED (s % 128) = true := by
      simp only [WIFSIGNALED, as_i8, decide_eq_true_eq]
      omega
    have hexD : WIFEXITED (s % 128 + 128) = false := by
      simp only [WIFEXITED]
      rw [beq_eq_false_iff_ne]
      omega
    have hsigD : WIFSIGNALED (s % 128 + 128) = true := by
      simp only [WIFSIGNALED, as_i8, decide_eq_true_eq]
      omega
    refine ⟨⟨by rw [hsynthK]; exact hsigK, ?_⟩, ⟨by rw [hsynthD]; exact hsigD, ?_⟩⟩
    · rw [hsynthK]
      simp only [decode_status, hexK, hsigK, if_true, WTERMSIG, Bool.false_eq_true, if_false]
      omega
    · rw [hsynthD]
      simp only [decode_status, hexD, hsigD, if_true, WTERMSIG, Bool.false_eq_true, if_false]
      omega

/-- Witness for `siginfo_status_decodes` at `si_status = 15` (SIGTERM):
the killed and dumped words decode to 143. -/
theorem siginfo_status_decodes_witness :
    (1 : Int) ≤ 15 % 128 ∧ (15 : Int) % 128 ≤ 126 ∧
    ((WIFSIGNALED (synth_raw_status CLD_KILLED 15) = true ∧
        decode_status (synth_raw_status CLD_KILLED 15) = 128 + 15 % 128) ∧
      (WIFSIGNALED (synth_raw_status CLD_DUMPED 15) = true ∧
        decode_status (synth_raw_status CLD_DUMPED 15) = 128 + 15 % 128)) :=
  ⟨by decide, by decide, (siginfo_status_decodes 15).2 (by decide) (by decide)⟩

/-- The envp fold of `build_command` only appends the split `KEY=VALUE` pairs
to the builder's environment list. -/
theorem foldl_env_spec :
    ∀ (entries : List String) (b : CommandBuilder),
    entries.foldl
      (fun b s =>
        match split_once_eq s with
        | some (key, val) => b.env key val
        | none => b)
      b =
    { b with envs := b.envs ++ entries.filterMap split_once_eq } := by
  intro entries
  induction entries with
  | nil => intro b; simp
  | cons s rest ih =>
    intro b
    rw [List.foldl_cons]
    cases hs : split_once_eq s with
    | none =>
      simp only [hs]
      rw [ih b]
      simp [List.filterMap_cons, hs]
    | some kv =>
      obtain ⟨k, v⟩ := kv
      simp only [hs]
      rw [ih (b.env k v)]
      simp [List.filterMap_cons, hs, CommandBuilder.env]

/-- `split_once_char` finds a split exactly when the character occurs. -/
theorem split_once_char_isSome :
    ∀ (c : Char) (l : List Char), (split_once_char c l).isSome ↔ c ∈ l := by
  intro c l
  induction l with
  | nil => simp [split_once_char]
  | cons x xs ih =>
    by_cases h : x = c
    · simp [split_once_char, h]
    · simp only [split_once_char, if_neg h, Option.isSome_map', ih, List.mem_cons]
      constructor
      · exact Or.inr
      · rintro (rfl | hmem)
        · exact absurd rfl h
        · exact hmem


/-- The envp section never touches the explicit-arguments list. -/
theorem apply_envp_args (b : CommandBuilder) (envp : Option (List String)) :
    (apply_envp b envp).args = b.args := by
  cases envp with
  | none => rfl
  | some es =>
    simp only [apply_envp]
    rw [foldl_env_spec]
    simp [CommandBuilder.env_clear]

/-- A non-null envp clears the environment and applies exactly the split
`KEY=VALUE` entries, in order. -/
theorem apply_envp_some (b : CommandBuilder) (entries : List String) :
    (apply_envp b (some entries)).env_cleared = true ∧
    (apply_envp b (some entries)).envs = b.envs ++ entries.filterMap split_once_eq := by
  simp only [apply_envp]
  rw [foldl_env_spec]
  simp [CommandBuilder.env_clear]

/-- The argv section appends exactly positions `1..` of argv and touches
nothing else. -/
theorem apply_argv_fields (b : CommandBuilder) (argv : Option (List String)) :
    (apply_argv b argv).args = b.args ++ (argv.getD []).drop 1 ∧
    (apply_argv b argv).envs = b.envs ∧
    (apply_argv b argv).env_cleared = b.env_cleared := by
  cases argv with
  | none => simp [apply_argv]
  | some args =>
    by_cases h : args.length > 1
    · simp [apply_argv, h, CommandBuilder.addArgs]
    · have hd : args.drop 1 = [] := List.drop_eq_nil_of_le (by omega)
      simp [apply_argv, h, hd]

/-- Claim C7: `portable_pty_spawn` passes only argv positions `1..` to the
command builder as explicit arguments (argv[0] is dropped, the command itself
serving as argv[0]); a non-null envp clears the inherited environment and
applies exactly the entries containing an `=` as split `KEY=VALUE` pairs,
silently skipping the rest (`split_once_eq` succeeds exactly on entries
containing an `=`). -/
theorem spawn_argv_env_builder :
    ∀ (cmd : String) (args entries : List String) (argv : Option (List String))
      (envp : Option (List String)),
    (build_command cmd (some args) envp).args = args.drop 1 ∧
    (build_command cmd argv (some entries)).env_cleared = true ∧
    (build_command cmd argv (some entries)).envs = entries.filterMap split_once_eq ∧
    (∀ s : String, (split_once_eq s).isSome ↔ '=' ∈ s.data) := by
  intro cmd args entries argv envp
  refine ⟨?_, ?_, ?_, ?_⟩
  · rw [build_command, apply_envp_args, (apply_argv_fields _ _).1]
    simp [CommandBuilder.new]
  · exact (apply_envp_some _ _).1
  · rw [build_command, (apply_envp_some _ _).2, (apply_argv_fields _ _).2.1]
    simp [CommandBuilder.new]
  · intro s
    simp only [split_once_eq, Option.isSome_map']
    exact split_once_char_isSome '=' s.data

/-- Claim C8: `register_pid` never resizes the registry; when every slot
already holds a non-zero pid it returns the registry unchanged (the new pid
goes untracked); when a free slot exists it claims exactly the first one —
the slot whose `pid` compare-exchange from 0 succeeds — writing the pid and
storing `SLOT_RUNNING` into its status, leaving every other slot unchanged. -/
theorem register_pid_capacity :
    ∀ (p : Int) (r : Registry),
    (register_pid p r).length = r.length ∧
    ((∀ slot ∈ r, slot.pid ≠ 0) → register_pid p r = r) ∧
    (∀ i, i < r.length → (r.getD i defaultSlot).pid = 0 →
      (∀ j, j < i → (r.getD j defaultSlot).pid ≠ 0) →
      register_pid p r = r.set i ⟨p, SLOT_RUNNING⟩) := by
  intro p r
  refine ⟨?_, ?_, ?_⟩
  · induction r with
    | nil => rfl
    | cons slot rest ih =>
      by_cases h : slot.pid = 0
      · simp [register_pid, h]
      · simp [register_pid, h, ih]
  · induction r with
    | nil => intro _; rfl
    | cons slot rest ih =>
      intro hall
      have h0 : slot.pid ≠ 0 := hall slot (List.mem_cons_self slot rest)
      simp only [register_pid, if_neg h0, List.cons.injEq, true_and]
      exact ih fun s hs => hall s (List.mem_cons_of_mem _ hs)
  · induction r with
    | nil =>
      intro i hi
      exact absurd hi (by simp)
    | cons slot rest ih =>
      intro i hi hpid0 hbefore
      by_cases h : slot.pid = 0
      · cases i with
        | zero => simp [register_pid, h]
        | succ i2 =>
          exfalso
          exact hbefore 0 (Nat.succ_pos i2) (by simpa using h)
      · cases i with
        | zero => exact absurd (by simpa using hpid0) h
        | succ i2 =>
          simp only [register_pid, if_neg h, List.set_cons_succ, List.cons.injEq, true_and]
          exact ih i2 (by simpa using hi) (by simpa using hpid0)
            fun j hj => by simpa using hbefore (j + 1) (by omega)

/-- Witness for `register_pid_capacity`: registering pid 9 claims exactly the
first free slot (index 1). -/
theorem register_pid_capacity_witness :
    1 < c8_reg.length ∧ (c8_reg.getD 1 defaultSlot).pid = 0 ∧
    (∀ j, j < 1 → (c8_reg.getD j defaultSlot).pid ≠ 0) ∧
    register_pid 9 c8_reg = c8_reg.set 1 ⟨9, SLOT_RUNNING⟩ :=
  ⟨by decide, by decide, by decide,
    (register_pid_capacity 9 c8_reg).2.2 1 (by decide) (by decide) (by decide)⟩

/-- A failing `spawn_finish` leaves the handle and registry untouched. -/
theorem spawn_finish_failure {pty : PortablePty} {builder : CommandBuilder}
    {sc : CommandBuilder → SpawnOutcome} {reg : Registry} {res : PortablePtyResult}
    {hNew : Option PortablePty} {regNew : Registry} :
    spawn_finish pty builder sc reg = (res, hNew, regNew) → res ≠ .Ok →
    hNew = some pty ∧ regNew = reg := by
  intro heq hres
  unfold spawn_finish at heq
  split at heq
  all_goals simp_all

/-- Claim C10: a `portable_pty_spawn` call that does not return `Ok` —
whether from a null or invalid-UTF-8 command, an invalid-UTF-8 argv entry, or
a failing underlying spawn — leaves the handle exactly as it was (child,
child_pid, cached_exit_code all unchanged) and registers nothing in the
registry. -/
theorem spawn_failure_frame :
    ∀ (pty : PortablePty) (cmd : Option CStrArg) (argv envp : Option (List CStrArg))
      (sc : CommandBuilder → SpawnOutcome) (reg : Registry)
      (res : PortablePtyResult) (hNew : Option PortablePty) (regNew : Registry),
    portable_pty_spawn (some pty) cmd argv envp sc reg = (res, hNew, regNew) →
    res ≠ .Ok →
    hNew = some pty ∧ regNew = reg := by
  intro pty cmd argv envp sc reg res hNew regNew heq hres
  unfold portable_pty_spawn at heq
  repeat' split at heq
  all_goals try simp only [] at heq
  all_goals try (split at heq)
  all_goals try simp_all
  all_goals
    obtain ⟨h1, h2⟩ := spawn_finish_failure heq hres
    simp_all

/-- Witness for `spawn_failure_frame`: a spawn whose underlying
`spawn_command` fails returns `ErrSpawn` and leaves handle and registry
untouched. -/
theorem spawn_failure_frame_witness :
    portable_pty_spawn (some ⟨false, -1, none⟩) (some (.valid "/bin/true")) none none
        (fun _ => .err) [⟨3, SLOT_RUNNING⟩] =
      (.ErrSpawn, some ⟨false, -1, none⟩, [⟨3, SLOT_RUNNING⟩]) ∧
    PortablePtyResult.ErrSpawn ≠ .Ok ∧
    (some (⟨false, -1, none⟩ : PortablePty) = some ⟨false, -1, none⟩ ∧
      ([⟨3, SLOT_RUNNING⟩] : Registry) = [⟨3, SLOT_RUNNING⟩]) :=
  ⟨by decide, by decide,
    spawn_failure_frame ⟨false, -1, none⟩ (some (.valid "/bin/true")) none none
      (fun _ => .err) [⟨3, SLOT_RUNNING⟩] .ErrSpawn (some ⟨false, -1, none⟩)
      [⟨3, SLOT_RUNNING⟩] (by decide) (by decide)⟩

theorem statusAt_cons_zero (slot : PidSlot) (rest : Registry) :
    statusAt (slot :: rest) 0 = slot.status := rfl

theorem statusAt_cons_succ (slot : PidSlot) (rest : Registry) (i : Nat) :
    statusAt (slot :: rest) (i + 1) = statusAt rest i := rfl

/-- The words the handler synthesizes from `siginfo_t` are nonnegative, hence
never collide with the (most-negative) sentinels. -/
theorem synth_raw_status_nonneg (si_code si_status : Int) :
    0 ≤ synth_raw_status si_code si_status := by
  unfold synth_raw_status
  split
  · omega
  · simp only []
    split
    · omega
    · omega

theorem handlerStep_trans {a b c : Int} (h1 : handlerStep a b) (h2 : handlerStep b c) :
    handlerStep a c := by
  rcases h1 with rfl | ⟨ha, hb⟩
  · exact h2
  · rcases h2 with rfl | ⟨hb2, hc⟩
    · exact Or.inr ⟨ha, hb⟩
    · exact absurd hb2 hb.1

/-- Step 1 of the handler only compare-exchanges a slot's status from
`SLOT_RUNNING` to the (concrete) synthesized word. -/
theorem handler_store_siginfo_step :
    ∀ (si_pid raw : Int) (r : Registry) (i : Nat), 0 ≤ raw →
    handlerStep (statusAt r i) (statusAt (handler_store_siginfo si_pid raw r) i) := by
  intro si_pid raw r
  induction r with
  | nil => intro i _; exact Or.inl rfl
  | cons slot rest ih =>
    intro i hraw
    simp only [handler_store_siginfo]
    by_cases h : slot.pid = si_pid
    · rw [if_pos h]
      cases i with
      | zero =>
        by_cases hs : slot.status = SLOT_RUNNING
        · rw [if_pos hs]
          refine Or.inr ⟨?_, ?_⟩
          · rw [statusAt_cons_zero]; exact hs
          · rw [statusAt_cons_zero]
            show isConcreteStatus raw
            unfold isConcreteStatus SLOT_RUNNING SLOT_EMPTY
            omega
        · rw [if_neg hs]
          exact Or.inl rfl
      | succ j => exact Or.inl rfl
    · rw [if_neg h]
      cases i with
      | zero => exact Or.inl rfl
      | succ j =>
        rw [statusAt_cons_succ, statusAt_cons_succ]
        exact ih j hraw

/-- Step 2 of the handler (the sweep) only replaces `SLOT_RUNNING` with a
status word obtained from `waitpid`, assumed to be a legal (nonnegative)
status word. -/
theorem handler_reap_sweep_step :
    ∀ (wp : Int → Option Int) (r : Registry) (i : Nat),
    (∀ p st, wp p = some st → 0 ≤ st) →
    handlerStep (statusAt r i) (statusAt (handler_reap_sweep wp r) i) := by
  intro wp r
  induction r with
  | nil => intro i _; exact Or.inl rfl
  | cons slot rest ih =>
    intro i hwp
    simp only [handler_reap_sweep, List.map_cons]
    cases i with
    | zero =>
      by_cases hc : slot.pid > 0 ∧ slot.status = SLOT_RUNNING
      · rw [if_pos hc]
        cases hw : wp slot.pid with
        | none => exact Or.inl rfl
        | some st =>
          refine Or.inr ⟨?_, ?_⟩
          · rw [statusAt_cons_zero]; exact hc.2
          · rw [statusAt_cons_zero]
            show isConcreteStatus st
            have := hwp slot.pid st hw
            unfold isConcreteStatus SLOT_RUNNING SLOT_EMPTY
            omega
      · rw [if_neg hc]
        exact Or.inl rfl
    | succ j =>
      rw [statusAt_cons_succ, statusAt_cons_succ]
      exact ih j hwp

/-- One handler execution respects `handlerStep` on every slot. -/
theorem sigchld_handler_step :
    ∀ (info : Option siginfo_t) (wp : Int → Option Int) (r : Registry) (i : Nat),
    (∀ p st, wp p = some st → 0 ≤ st) →
    handlerStep (statusAt r i) (statusAt (sigchld_handler info wp r) i) := by
  intro info wp r i hwp
  unfold sigchld_handler
  cases info with
  | none => exact handler_reap_sweep_step wp r i hwp
  | some si =>
    simp only []
    by_cases hc : si.si_pid > 0 ∧
        (si.si_code = CLD_EXITED ∨ si.si_code = CLD_KILLED ∨ si.si_code = CLD_DUMPED)
    · rw [if_pos hc]
      exact handlerStep_trans
        (handler_store_siginfo_step si.si_pid _ r i (synth_raw_status_nonneg _ _))
        (handler_reap_sweep_step wp _ i hwp)
    · rw [if_neg hc]
      exact handler_reap_sweep_step wp r i hwp

/-- Registration either leaves a slot's status alone or turns the claimed
(empty, by well-formedness) slot's status from `SLOT_EMPTY` into
`SLOT_RUNNING`. -/
theorem register_pid_step :
    ∀ (p : Int) (r : Registry) (i : Nat),
    (∀ slot ∈ r, slot.pid = 0 → slot.status = SLOT_EMPTY) →
    statusAt (register_pid p r) i = statusAt r i ∨
      (statusAt r i = SLOT_EMPTY ∧ statusAt (register_pid p r) i = SLOT_RUNNING) := by
  intro p r
  induction r with
  | nil => intro i _; exact Or.inl rfl
  | cons slot rest ih =>
    intro i hwf
    simp only [register_pid]
    by_cases h : slot.pid = 0
    · rw [if_pos h]
      cases i with
      | zero =>
        refine Or.inr ⟨?_, rfl⟩
        rw [statusAt_cons_zero]
        exact hwf slot (List.mem_cons_self slot rest) h
      | succ j => exact Or.inl rfl
    · rw [if_neg h]
      cases i with
      | zero => exact Or.inl rfl
      | succ j =>
        rw [statusAt_cons_succ, statusAt_cons_succ]
        exact ih j fun s hs => hwf s (List.mem_cons_of_mem _ hs)

/-- Unregistration either leaves a slot's status alone or writes
`SLOT_EMPTY`. -/
theorem unregister_pid_step :
    ∀ (p : Int) (r : Registry) (i : Nat),
    statusAt (unregister_pid p r) i = statusAt r i ∨
      statusAt (unregister_pid p r) i = SLOT_EMPTY := by
  intro p r
  induction r with
  | nil => intro i; exact Or.inl rfl
  | cons slot rest ih =>
    intro i
    simp only [unregister_pid]
    by_cases h : slot.pid = p
    · rw [if_pos h]
      cases i with
      | zero => exact Or.inr rfl
      | succ j => exact Or.inl rfl
    · rw [if_neg h]
      cases i with
      | zero => exact Or.inl rfl
      | succ j =>
        rw [statusAt_cons_succ, statusAt_cons_succ]
        exact ih j

/-- Claim C3: in a well-formed registry (empty slots have `SLOT_EMPTY`
status), a slot's status only ever transitions `SLOT_EMPTY` → `SLOT_RUNNING`
at registration, `SLOT_RUNNING` → concrete by the signal handler (which never
overwrites an already-concrete value), and anything → `SLOT_EMPTY` at
unregistration, never backwards; in particular a concrete status is only ever
changed by the `SLOT_EMPTY` write of unregistration. -/
theorem registry_status_transitions :
    ∀ (op : RegOp) (r : Registry) (i : Nat),
    (∀ slot ∈ r, slot.pid = 0 → slot.status = SLOT_EMPTY) →
    (∀ info wp, op = .handler info wp → ∀ p st, wp p = some st → 0 ≤ st) →
    (statusAt (op.apply r) i = statusAt r i ∨
      ((∃ p, op = .register p) ∧ statusAt r i = SLOT_EMPTY ∧
        statusAt (op.apply r) i = SLOT_RUNNING) ∨
      ((∃ info wp, op = .handler info wp) ∧ statusAt r i = SLOT_RUNNING ∧
        isConcreteStatus (statusAt (op.apply r) i)) ∨
      ((∃ p, op = .unregister p) ∧ statusAt (op.apply r) i = SLOT_EMPTY)) ∧
    (isConcreteStatus (statusAt r i) → statusAt (op.apply r) i ≠ statusAt r i →
      (∃ p, op = .unregister p) ∧ statusAt (op.apply r) i = SLOT_EMPTY) := by
  intro op r i hwf hwp
  cases op with
  | register p =>
    rcases register_pid_step p r i hwf with h | ⟨h1, h2⟩
    · exact ⟨Or.inl h, fun _ hne => absurd h hne⟩
    · refine ⟨Or.inr (Or.inl ⟨⟨p, rfl⟩, h1, h2⟩), ?_⟩
      intro hconc _
      exact absurd h1 hconc.2
  | unregister p =>
    rcases unregister_pid_step p r i with h | h
    · exact ⟨Or.inl h, fun _ hne => absurd h hne⟩
    · exact ⟨Or.inr (Or.inr (Or.inr ⟨⟨p, rfl⟩, h⟩)), fun _ _ => ⟨⟨p, rfl⟩, h⟩⟩
  | handler info wp =>
    have hstep := sigchld_handler_step info wp r i (hwp info wp rfl)
    rcases hstep with h | ⟨h1, h2⟩
    · exact ⟨Or.inl h, fun _ hne => absurd h hne⟩
    · refine ⟨Or.inr (Or.inr (Or.inl ⟨⟨info, wp, rfl⟩, h1, h2⟩)), ?_⟩
      intro hconc _
      exact absurd h1 hconc.1

/-- Witness for `registry_status_transitions`: the handler step on a
well-formed one-slot registry. -/
theorem registry_status_transitions_witness :
    (∀ slot ∈ c3_reg, slot.pid = 0 → slot.status = SLOT_EMPTY) ∧
    ((statusAt (c3_op.apply c3_reg) 0 = statusAt c3_reg 0 ∨
      ((∃ p, c3_op = .register p) ∧ statusAt c3_reg 0 = SLOT_EMPTY ∧
        statusAt (c3_op.apply c3_reg) 0 = SLOT_RUNNING) ∨
      ((∃ info wp, c3_op = .handler info wp) ∧ statusAt c3_reg 0 = SLOT_RUNNING ∧
        isConcreteStatus (statusAt (c3_op.apply c3_reg) 0)) ∨
      ((∃ p, c3_op = .unregister p) ∧ statusAt (c3_op.apply c3_reg) 0 = SLOT_EMPTY)) ∧
    (isConcreteStatus (statusAt c3_reg 0) → statusAt (c3_op.apply c3_reg) 0 ≠ statusAt c3_reg 0 →
      (∃ p, c3_op = .unregister p) ∧ statusAt (c3_op.apply c3_reg) 0 = SLOT_EMPTY)) :=
  ⟨by decide,
    registry_status_transitions c3_op c3_reg 0 (by decide)
      (by
        intro info wp h p st hw
        injection h with h1 h2
        subst h2
        exact Option.noConfusion hw)⟩

